import Mathlib

/-!
Shallow embedding of the CloudScript blog backend (src/server.js).

The server is a set of HTTP routes, each performing one SQLite statement.
We model the durable store (users and posts tables) as lists with
auto-increment counters, request bodies as optional string fields
(absent = none), JavaScript truthiness checks on those fields, and each
route as a pure function from the store and the request to a response and
the next store.  Password hashing (bcrypt) and the S3 signing collaborator
are treated as parameters, as the spec treats them as external
collaborators.
-/

namespace CloudScript

/-- JavaScript truthiness of an optional string request-body field:
`undefined` and the empty string are falsy, every other string is truthy.
This is the semantics of the guards of the form `if (!field)` in the routes. -/
def truthy : Option String → Bool
  | some s => s ≠ ""
  | none => false

/-- A row of the `users` table: `password` stores the bcrypt hash. -/
structure User where
  id : Nat
  fullName : String
  email : String
  password : String
deriving DecidableEq, Repr

/-- A row of the `posts` table.  `createdAt` is a server-assigned timestamp
modelled as a natural number; `status` is a string as in the SQL schema. -/
structure Post where
  id : Nat
  title : String
  content : String
  author : String
  username : Option String
  imageUrl : Option String
  category : Option String
  status : String
  createdAt : Nat
deriving DecidableEq, Repr

/-- The durable store: both tables plus the AUTOINCREMENT counters
(SQLite assigns ids starting from 1). -/
structure DB where
  users : List User
  posts : List Post
  nextUserId : Nat
  nextPostId : Nat
deriving DecidableEq, Repr

def emptyDB : DB := ⟨[], [], 1, 1⟩

/-- An HTTP response without a payload: status code and message. -/
structure Resp where
  status : Nat
  message : String
deriving DecidableEq, Repr

/-- Response of POST /api/login: on success the user summary
(id, fullName, email) is returned, never the stored hash. -/
inductive LoginResult where
  | ok (status : Nat) (message : String) (id : Nat) (fullName : String) (email : String)
  | err (status : Nat) (message : String)
deriving DecidableEq, Repr

/-- The row lookup `SELECT * FROM users WHERE email = ?` (first match). -/
def findUser (users : List User) (email : String) : Option User :=
  users.find? (fun u => u.email == email)

/-- POST /api/signup (src/server.js lines 73-90): validates truthiness of the
three fields, hashes the password with the collaborator `hash`, and inserts;
the UNIQUE constraint on email makes the insert fail with 409 when a user
with that email already exists. -/
def signup (hash : String → String) (db : DB) (fullName email password : Option String) :
    Resp × DB :=
  if !truthy fullName || !truthy email || !truthy password then
    (⟨400, "All fields required."⟩, db)
  else if db.users.any (fun u => u.email == email.getD "") then
    (⟨409, "Email already exists."⟩, db)
  else
    let u : User := ⟨db.nextUserId, fullName.getD "", email.getD "", hash (password.getD "")⟩
    (⟨201, "User registered successfully!"⟩,
      { db with users := db.users ++ [u], nextUserId := db.nextUserId + 1 })

/-- POST /api/login (src/server.js lines 93-108): validates truthiness, looks
the user up by email, and verifies the password with the collaborator
`compare` (bcrypt.compare).  Both failure cases answer 401 with the same
message. -/
def login (compare : String → String → Bool) (db : DB) (email password : Option String) :
    LoginResult :=
  if !truthy email || !truthy password then
    .err 400 "Email and password required."
  else
    match findUser db.users (email.getD "") with
    | none => .err 401 "Invalid credentials."
    | some user =>
      if compare (password.getD "") user.password then
        .ok 200 "Login successful!" user.id user.fullName user.email
      else
        .err 401 "Invalid credentials."

/-- POST /api/posts (src/server.js lines 111-124): the guard checks
truthiness of title, content, author, username AND category; the insert
stores `imageUrl || null` and the literal status `pending`;
`createdAt` is the server-assigned timestamp (CURRENT_TIMESTAMP),
passed here as `now`. -/
def createPost (db : DB) (now : Nat)
    (title content author username imageUrl category : Option String) : Resp × DB :=
  if !truthy title || !truthy content || !truthy author || !truthy username ||
      !truthy category then
    (⟨400, "Missing fields."⟩, db)
  else
    let p : Post :=
      { id := db.nextPostId, title := title.getD "", content := content.getD "",
        author := author.getD "", username := username,
        imageUrl := if truthy imageUrl then imageUrl else none,
        category := category, status := "pending", createdAt := now }
    (⟨201, "Post created successfully."⟩,
      { db with posts := db.posts ++ [p], nextPostId := db.nextPostId + 1 })

/-- The comparison of `ORDER BY createdAt DESC`. -/
def byCreatedAtDesc (a b : Post) : Bool := b.createdAt ≤ a.createdAt

/-- GET /api/posts (src/server.js lines 127-132):
`SELECT * FROM posts ORDER BY createdAt DESC`. -/
def listAll (db : DB) : List Post :=
  db.posts.mergeSort byCreatedAtDesc

/-- GET /api/posts/approved and /api/posts/pending (src/server.js lines
135-148): `SELECT * FROM posts WHERE status = ? ORDER BY createdAt DESC`. -/
def listByStatus (db : DB) (status : String) : List Post :=
  (db.posts.filter (fun p => p.status == status)).mergeSort byCreatedAtDesc

/-- GET /api/posts/:id (src/server.js lines 178-184):
`SELECT * FROM posts WHERE id = ?` (first match). -/
def getPost (db : DB) (id : Nat) : Option Post :=
  db.posts.find? (fun p => p.id == id)

/-- The effect of `UPDATE posts SET status = ? WHERE id = ?` on the table. -/
def setStatus (posts : List Post) (id : Nat) (status : String) : List Post :=
  posts.map (fun p => if p.id == id then { p with status := status } else p)

/-- The row count `this.changes` reported for a WHERE id = ? write. -/
def matchCount (posts : List Post) (id : Nat) : Nat :=
  (posts.filter (fun p => p.id == id)).length

/-- PUT /api/posts/:id/approve (src/server.js lines 151-157): unconditional
status overwrite; 404 exactly when the update matched zero rows. -/
def approvePost (db : DB) (id : Nat) : Resp × DB :=
  let db' := { db with posts := setStatus db.posts id "approved" }
  if matchCount db.posts id == 0 then (⟨404, "Post not found."⟩, db')
  else (⟨200, "Post approved."⟩, db')

/-- PUT /api/posts/:id/reject (src/server.js lines 160-166). -/
def rejectPost (db : DB) (id : Nat) : Resp × DB :=
  let db' := { db with posts := setStatus db.posts id "rejected" }
  if matchCount db.posts id == 0 then (⟨404, "Post not found."⟩, db')
  else (⟨200, "Post rejected."⟩, db')

/-- DELETE /api/posts/:id (src/server.js lines 169-175). -/
def deletePost (db : DB) (id : Nat) : Resp × DB :=
  let db' := { db with posts := db.posts.filter (fun p => !(p.id == id)) }
  if matchCount db.posts id == 0 then (⟨404, "Post not found."⟩, db')
  else (⟨200, "Post deleted."⟩, db')

/-- The fixed validity window of the pre-signed upload URL
(src/server.js line 33: URL_EXPIRATION_SECONDS = 300, five minutes). -/
def URL_EXPIRATION_SECONDS : Nat := 300

/-- The character class matched by the JavaScript regex `\s`
(whitespace: space, tab, line terminators, and Unicode space separators). -/
def jsWhitespace (c : Char) : Bool :=
  c.val = 0x20 || c.val = 0x09 || c.val = 0x0a || c.val = 0x0b || c.val = 0x0c ||
  c.val = 0x0d || c.val = 0xa0 || c.val = 0x1680 ||
  (0x2000 ≤ c.val && c.val ≤ 0x200a) ||
  c.val = 0x2028 || c.val = 0x2029 || c.val = 0x202f || c.val = 0x205f ||
  c.val = 0x3000 || c.val = 0xfeff

/-- Helper for `collapseWhitespace`: the flag records whether the previous
character was whitespace, so that only the first character of a run emits
the underscore. -/
def collapseAux : Bool → List Char → List Char
  | _, [] => []
  | prevWS, c :: rest =>
    if jsWhitespace c then
      (if prevWS then [] else [Char.ofNat 0x5f]) ++ collapseAux true rest
    else
      c :: collapseAux false rest

/-- The semantics of `.replace(/\s+/g, m)` applied characterwise: each
maximal run of whitespace characters becomes a single underscore. -/
def collapseWhitespace (l : List Char) : List Char :=
  collapseAux false l

/-- The character class kept by `.replace(/[^a-zA-Z0-9._-]/g, ...)`. -/
def keepChar (c : Char) : Bool :=
  (0x61 ≤ c.val && c.val ≤ 0x7a) || (0x41 ≤ c.val && c.val ≤ 0x5a) ||
  (0x30 ≤ c.val && c.val ≤ 0x39) || c.val = 0x2e || c.val = 0x5f || c.val = 0x2d

/-- The sanitization of the client-supplied file name in
POST /api/s3-presigned-url (src/server.js line 192):
`fileName.replace(/\s+/g, ...)` followed by stripping every character
outside the kept class. -/
def sanitizeFileName (s : String) : String :=
  String.mk ((collapseWhitespace s.data).filter keepChar)

/-- The derived storage key `posts/<Date.now()>-<sanitized fileName>`. -/
def s3Key (now : Nat) (fileName : String) : String :=
  "posts/" ++ toString now ++ "-" ++ sanitizeFileName fileName

/-- The parameters handed to the storage collaborator for
`s3.getSignedUrl` in src/server.js lines 194-201. -/
structure PresignParams where
  bucket : String
  key : String
  expires : Nat
  contentType : String
deriving DecidableEq, Repr

/-- Response of POST /api/s3-presigned-url: on success the signing
parameters given to the collaborator plus the deterministic public file
URL (the opaque signed URL itself is produced by the collaborator). -/
inductive UploadGrantResult where
  | ok (params : PresignParams) (fileUrl : String)
  | err (status : Nat) (message : String)
deriving DecidableEq, Repr

/-- POST /api/s3-presigned-url (src/server.js lines 187-211): validates
truthiness of fileName and fileType, derives the key, and requests a
write URL scoped to that key, valid URL_EXPIRATION_SECONDS and bound to
fileType as content type. -/
def createUploadGrant (bucket region : String) (now : Nat)
    (fileName fileType : Option String) : UploadGrantResult :=
  if !truthy fileName || !truthy fileType then
    .err 400 "Missing file info."
  else
    let key := s3Key now (fileName.getD "")
    .ok ⟨bucket, key, URL_EXPIRATION_SECONDS, fileType.getD ""⟩
      ("https://" ++ bucket ++ ".s3." ++ region ++ ".amazonaws.com/" ++ key)

/-- The post-store operations a client can drive through the routes. -/
inductive Op where
  | submit (now : Nat) (title content author username imageUrl category : Option String)
  | approve (id : Nat)
  | reject (id : Nat)
  | remove (id : Nat)
deriving Repr

/-- The store after one route call (responses discarded). -/
def step (db : DB) : Op → DB
  | .submit now t c a u i cat => (createPost db now t c a u i cat).2
  | .approve id => (approvePost db id).2
  | .reject id => (rejectPost db id).2
  | .remove id => (deletePost db id).2

/-- The store after a sequence of route calls. -/
def run (db : DB) (ops : List Op) : DB :=
  ops.foldl step db

/-- A status value permitted by the moderation workflow. -/
def statusOK (s : String) : Prop :=
  s = "pending" ∨ s = "approved" ∨ s = "rejected"

instance (s : String) : Decidable (statusOK s) := by
  unfold statusOK
  infer_instance

/-- The transitions named by the spec sentence under scrutiny: staying in
place (idempotent overwrite) or leaving `pending`. -/
def allowedTransition (old new : String) : Prop :=
  old = new ∨ (old = "pending" ∧ (new = "approved" ∨ new = "rejected"))

instance (old new : String) : Decidable (allowedTransition old new) := by
  unfold allowedTransition
  infer_instance

/-- Every allocated post id is below the AUTOINCREMENT counter: what
SQLite guarantees of its tables, needed to look a fresh row up by id. -/
def WF (db : DB) : Prop := ∀ p ∈ db.posts, p.id < db.nextPostId

/-- A store reached by running the routes from the empty store: one post,
submitted and then approved. -/
def approvedDB : DB :=
  run emptyDB
    [Op.submit 0 (some "T") (some "B") (some "A") (some "a") none (some "tech"),
     Op.approve 1]

/-- A store with a single registered user, used to instantiate the
credential claims. -/
def oneUserDB : DB := ⟨[⟨1, "N", "a@b", "H"⟩], [], 2, 1⟩

/-- The frame of a moderation write on the store: only the status of the
posts with the targeted id changes, every other field, every other post,
the users table and the counters are untouched, and no post appears or
disappears. -/
def FramePreserved (db db' : DB) (pid : Nat) (st : String) : Prop :=
  db'.users = db.users ∧ db'.nextUserId = db.nextUserId ∧ db'.nextPostId = db.nextPostId ∧
  db'.posts.length = db.posts.length ∧
  (∀ (i : Nat) (p q : Post), db.posts[i]? = some p → db'.posts[i]? = some q →
    q.id = p.id ∧ q.title = p.title ∧ q.content = p.content ∧ q.author = p.author ∧
    q.username = p.username ∧ q.imageUrl = p.imageUrl ∧ q.category = p.category ∧
    q.createdAt = p.createdAt ∧ (p.id ≠ pid → q = p) ∧ (p.id = pid → q.status = st))

/-- Helper: a write targeting an id carried by some row reports a nonzero
row count. -/
theorem matchCount_eq_zero_eq_false (posts : List Post) (id : Nat)
    (hex : ∃ p ∈ posts, p.id = id) : (matchCount posts id == 0) = false := by
  obtain ⟨p, hp, hpid⟩ := hex
  have hmem : p ∈ posts.filter (fun p => p.id == id) :=
    List.mem_filter.mpr ⟨hp, by simp [hpid]⟩
  have hlen : 0 < (posts.filter (fun p => p.id == id)).length :=
    List.length_pos.mpr (List.ne_nil_of_mem hmem)
  have hne : matchCount posts id ≠ 0 := by
    unfold matchCount
    omega
  simpa using hne

/-- Helper: the updated image of a matching row is in the updated table. -/
theorem mem_setStatus_self (posts : List Post) (id : Nat) (st : String) (p : Post)
    (hp : p ∈ posts) (hpid : p.id = id) :
    ({ p with status := st } : Post) ∈ setStatus posts id st := by
  have h := List.mem_map_of_mem
    (fun r => if r.id == id then { r with status := st } else r) hp
  simpa [setStatus, hpid] using h

/-- Helper: a status update keeps a row with the targeted id present. -/
theorem exists_id_setStatus (posts : List Post) (id : Nat) (st : String)
    (hex : ∃ p ∈ posts, p.id = id) : ∃ p ∈ setStatus posts id st, p.id = id := by
  obtain ⟨p, hp, hpid⟩ := hex
  exact ⟨{ p with status := st }, mem_setStatus_self posts id st p hp hpid, hpid⟩

/-- Helper: after a status update, looking the id up finds a row carrying
the written status. -/
theorem find?_setStatus (posts : List Post) (id : Nat) (st : String)
    (hex : ∃ p ∈ posts, p.id = id) :
    ∃ q, (setStatus posts id st).find? (fun p => p.id == id) = some q ∧ q.status = st := by
  obtain ⟨p, hp, hpid⟩ := hex
  have hsome : ((setStatus posts id st).find? (fun p => p.id == id)).isSome := by
    rw [List.find?_isSome]
    exact ⟨_, mem_setStatus_self posts id st p hp hpid, by simp [hpid]⟩
  obtain ⟨q, hq⟩ := Option.isSome_iff_exists.mp hsome
  have hqpred := List.find?_some hq
  have hqmem : q ∈ setStatus posts id st := List.mem_of_find?_eq_some hq
  obtain ⟨r, hr, hfr⟩ := List.mem_map.mp (by simpa [setStatus] using hqmem)
  by_cases hrid : r.id = id
  · refine ⟨q, hq, ?_⟩
    rw [← hfr]
    simp [hrid]
  · rw [← hfr] at hqpred
    simp [hrid] at hqpred

/-- Helper: the store approve leaves behind, in both the found and the
not-found branch (the UPDATE has already run when the count is read). -/
theorem approvePost_snd (db : DB) (id : Nat) :
    (approvePost db id).2 = { db with posts := setStatus db.posts id "approved" } := by
  unfold approvePost
  split <;> rfl

/-- Helper: the store reject leaves behind. -/
theorem rejectPost_snd (db : DB) (id : Nat) :
    (rejectPost db id).2 = { db with posts := setStatus db.posts id "rejected" } := by
  unfold rejectPost
  split <;> rfl

/-- Helper: the store delete leaves behind. -/
theorem deletePost_snd (db : DB) (id : Nat) :
    (deletePost db id).2 = { db with posts := db.posts.filter (fun p => !(p.id == id)) } := by
  unfold deletePost
  split <;> rfl

/-- Helper: a status update with a legal status preserves the status
invariant. -/
theorem statusOK_setStatus (posts : List Post) (id : Nat) (st : String)
    (hst : statusOK st) (hdb : ∀ p ∈ posts, statusOK p.status) :
    ∀ p ∈ setStatus posts id st, statusOK p.status := by
  intro p hp
  obtain ⟨r, hr, hfr⟩ := List.mem_map.mp hp
  by_cases hrid : r.id = id
  · rw [← hfr]
    simpa [hrid] using hst
  · rw [← hfr]
    simpa [hrid] using hdb r hr

/-- Helper: every route call preserves the status invariant. -/
theorem statusOK_step (db : DB) (hdb : ∀ p ∈ db.posts, statusOK p.status) (op : Op) :
    ∀ p ∈ (step db op).posts, statusOK p.status := by
  cases op with
  | submit now t c a u i cat =>
    intro p hp
    simp only [step, createPost] at hp
    by_cases hcond :
        (!truthy t || !truthy c || !truthy a || !truthy u || !truthy cat) = true
    · rw [if_pos hcond] at hp
      exact hdb p hp
    · rw [if_neg hcond] at hp
      simp at hp
      rcases hp with hp | hp
      · exact hdb p hp
      · rw [hp]
        left; rfl
  | approve id =>
    have h := approvePost_snd db id
    intro p hp
    rw [step, h] at hp
    exact statusOK_setStatus db.posts id "approved" (by right; left; rfl) hdb p hp
  | reject id =>
    have h := rejectPost_snd db id
    intro p hp
    rw [step, h] at hp
    exact statusOK_setStatus db.posts id "rejected" (by right; right; rfl) hdb p hp
  | remove id =>
    have h := deletePost_snd db id
    intro p hp
    rw [step, h] at hp
    exact hdb p (List.mem_of_mem_filter hp)

/-- Helper: after a status update, every row with the targeted id carries
the written status, whatever it was before. -/
theorem setStatus_id_status (posts : List Post) (id : Nat) (st : String) :
    ∀ p ∈ setStatus posts id st, p.id = id → p.status = st := by
  intro p hp hpid
  obtain ⟨r, hr, hfr⟩ := List.mem_map.mp hp
  by_cases hrid : r.id = id
  · rw [← hfr]
    simp [hrid]
  · rw [← hfr] at hpid ⊢
    simp [hrid] at hpid

/-- Helper: the descending createdAt comparison is transitive. -/
theorem byCreatedAtDesc_trans (a b c : Post) :
    byCreatedAtDesc a b → byCreatedAtDesc b c → byCreatedAtDesc a c := by
  intro hab hbc
  simp only [byCreatedAtDesc, decide_eq_true_eq] at *
  omega

/-- Helper: the descending createdAt comparison is total. -/
theorem byCreatedAtDesc_total (a b : Post) :
    byCreatedAtDesc a b || byCreatedAtDesc b a := by
  simp only [byCreatedAtDesc, Bool.or_eq_true, decide_eq_true_eq]
  omega

/-- Helper: a status update touches nothing but the status of the rows
with the targeted id. -/
theorem framePreserved_setStatus (db : DB) (pid : Nat) (st : String) :
    FramePreserved db { db with posts := setStatus db.posts pid st } pid st := by
  refine ⟨rfl, rfl, rfl, by simp [setStatus], ?_⟩
  intro i p q hp hq
  simp only [setStatus] at hq
  rw [List.getElem?_map, hp] at hq
  simp only [Option.map_some'] at hq
  injection hq with hq
  subst hq
  by_cases hpid : p.id = pid
  · simp [hpid]
  · simp [hpid]

/-- C1 (counterexample): the status machine is not confined to the
transitions pending-to-approved and pending-to-rejected.  In the reachable
store `approvedDB` (submit, then approve) the post has status
`approved`; one further reject call moves it to `rejected`, a transition
the claim's sentence does not allow. -/
theorem C1_transition_counterexample :
    (getPost approvedDB 1).map Post.status = some "approved" ∧
    (getPost (step approvedDB (Op.reject 1)) 1).map Post.status = some "rejected" ∧
    ¬ allowedTransition "approved" "rejected" := by decide

/-- C1 (amended): across any sequence of route calls every post status
stays in the set pending/approved/rejected, and approve and reject
overwrite the status of every matching row unconditionally — re-applying
is idempotent-by-overwrite and no prior status blocks the write (so
approved-to-rejected and rejected-to-approved also occur). -/
theorem C1_status_machine (db : DB) (hdb : ∀ p ∈ db.posts, statusOK p.status)
    (ops : List Op) :
    (∀ p ∈ (run db ops).posts, statusOK p.status) ∧
    (∀ id, ∀ p ∈ (approvePost db id).2.posts, p.id = id → p.status = "approved") ∧
    (∀ id, ∀ p ∈ (rejectPost db id).2.posts, p.id = id → p.status = "rejected") := by
  refine ⟨?_, ?_, ?_⟩
  · induction ops generalizing db with
    | nil => exact hdb
    | cons op ops ih =>
      have h : run db (op :: ops) = run (step db op) ops := rfl
      rw [h]
      exact ih (step db op) (statusOK_step db hdb op)
  · intro id p hp
    rw [approvePost_snd db id] at hp
    exact setStatus_id_status db.posts id "approved" p hp
  · intro id p hp
    rw [rejectPost_snd db id] at hp
    exact setStatus_id_status db.posts id "rejected" p hp

/-- C1 witness: the amended theorem applied to the reachable store
`approvedDB` and one reject call. -/
theorem C1_status_machine_witness : statusOK "rejected" := by
  have h := C1_status_machine approvedDB (by decide) [Op.reject 1]
  have hm : (⟨1, "T", "B", "A", some "a", none, some "tech", "rejected", 0⟩ : Post)
      ∈ (run approvedDB [Op.reject 1]).posts := by decide
  simpa using h.1 _ hm

/-- C2 (counterexample): a submit with every field present except
`category` is rejected with the 400 validation error and creates no post,
instead of succeeding with category defaulted to `uncategorized`. -/
theorem C2_category_counterexample :
    (createPost emptyDB 5 (some "T") (some "Body") (some "Alice") (some "alice") none none).1
      = ⟨400, "Missing fields."⟩ ∧
    (createPost emptyDB 5 (some "T") (some "Body") (some "Alice") (some "alice") none none).2
      = emptyDB := by decide

/-- C2 (amended): submit fails with the validation error exactly when one
of title, content, author, username or category is missing or empty (the
route's guard includes category); when validation passes and imageUrl is
falsy, the post is created with imageUrl stored as null and status
pending. -/
theorem C2_submit_validation (db : DB) (now : Nat)
    (title content author username imageUrl category : Option String) :
    ((createPost db now title content author username imageUrl category).1.status = 400 ↔
      (truthy title = false ∨ truthy content = false ∨ truthy author = false ∨
       truthy username = false ∨ truthy category = false)) ∧
    (truthy imageUrl = false →
      (createPost db now title content author username imageUrl category).1.status = 201 →
      ∃ p, (createPost db now title content author username imageUrl category).2.posts
             = db.posts ++ [p] ∧ p.imageUrl = none ∧ p.status = "pending") := by
  cases hcond :
      (!truthy title || !truthy content || !truthy author || !truthy username ||
        !truthy category) with
  | true =>
    have hdis : truthy title = false ∨ truthy content = false ∨ truthy author = false ∨
        truthy username = false ∨ truthy category = false := by
      simp only [Bool.or_eq_true, Bool.not_eq_true'] at hcond
      tauto
    refine ⟨by simp [createPost, hcond, hdis], ?_⟩
    intro _ h201
    rw [createPost] at h201
    rw [if_pos hcond] at h201
    simp at h201
  | false =>
    have hall := hcond
    simp only [Bool.or_eq_false_iff, Bool.not_eq_false'] at hall
    obtain ⟨⟨⟨⟨ht, hc⟩, ha⟩, hu⟩, hcat⟩ := hall
    constructor
    · rw [createPost]
      simp [hcond, ht, hc, ha, hu, hcat]
    · intro himg _
      refine ⟨{ id := db.nextPostId, title := title.getD "", content := content.getD "",
                author := author.getD "", username := username, imageUrl := none,
                category := category, status := "pending", createdAt := now }, ?_, rfl, rfl⟩
      rw [createPost]
      simp [hcond, himg]

/-- C2 witness: the amended validation theorem instantiated at a concrete
well-formed submission. -/
theorem C2_submit_validation_witness :
    truthy (some "img.png") = false ∨
    ((createPost emptyDB 7 (some "T") (some "B") (some "A") (some "a") none (some "c")).1.status
        = 400 ↔
      (truthy (some "T") = false ∨ truthy (some "B") = false ∨ truthy (some "A") = false ∨
       truthy (some "a") = false ∨ truthy (some "c") = false)) :=
  Or.inr (C2_submit_validation emptyDB 7 (some "T") (some "B") (some "A") (some "a")
    none (some "c")).1

/-- C3: on a store holding a post with the targeted id, approve then
reject both report 200 (the row matched both times, whatever its status),
and the final status read back for that id is rejected — the later write
wins. -/
theorem C3_approve_then_reject (db : DB) (id : Nat) (p0 : Post)
    (hp0 : p0 ∈ db.posts) (hid : p0.id = id) :
    (approvePost db id).1 = ⟨200, "Post approved."⟩ ∧
    (rejectPost (approvePost db id).2 id).1 = ⟨200, "Post rejected."⟩ ∧
    ∃ p, getPost (rejectPost (approvePost db id).2 id).2 id = some p ∧
      p.status = "rejected" := by
  have hex : ∃ p ∈ db.posts, p.id = id := ⟨p0, hp0, hid⟩
  have h0 := matchCount_eq_zero_eq_false db.posts id hex
  have hex1 : ∃ p ∈ (approvePost db id).2.posts, p.id = id := by
    simpa [approvePost, h0] using exists_id_setStatus db.posts id "approved" hex
  have h1 := matchCount_eq_zero_eq_false (approvePost db id).2.posts id hex1
  refine ⟨by simp [approvePost, h0], by simp [rejectPost, h1], ?_⟩
  have hfind := find?_setStatus (approvePost db id).2.posts id "rejected" hex1
  simpa [rejectPost, h1, getPost] using hfind

/-- C3 witness: approve then reject on the concrete store `approvedDB`,
whose single post has id 1. -/
theorem C3_approve_then_reject_witness :
    (approvePost approvedDB 1).1 = ⟨200, "Post approved."⟩ ∧
    (rejectPost (approvePost approvedDB 1).2 1).1 = ⟨200, "Post rejected."⟩ ∧
    ∃ p, getPost (rejectPost (approvePost approvedDB 1).2 1).2 1 = some p ∧
      p.status = "rejected" :=
  C3_approve_then_reject approvedDB 1
    ⟨1, "T", "B", "A", some "a", none, some "tech", "approved", 0⟩ (by decide) (by decide)

/-- C4: a login with an email matching no user and a login with an
existing email but a password the collaborator rejects both produce the
401 response with the identical message, and the two responses are equal —
the caller cannot tell the cases apart. -/
theorem C4_login_indistinguishable (compare : String → String → Bool) (db : DB)
    (email1 password1 email2 password2 : String)
    (he1 : email1 ≠ "") (hp1 : password1 ≠ "") (he2 : email2 ≠ "") (hp2 : password2 ≠ "")
    (hnouser : findUser db.users email1 = none)
    (u : User) (hfound : findUser db.users email2 = some u)
    (hwrong : compare password2 u.password = false) :
    login compare db (some email1) (some password1) = .err 401 "Invalid credentials." ∧
    login compare db (some email2) (some password2) = .err 401 "Invalid credentials." ∧
    login compare db (some email1) (some password1)
      = login compare db (some email2) (some password2) := by
  refine ⟨?_, ?_, ?_⟩ <;>
    simp [login, truthy, he1, hp1, he2, hp2, hnouser, hfound, hwrong]

/-- C4 witness: both failing logins on the one-user store, with exact
string equality standing in for the hash comparison. -/
theorem C4_login_indistinguishable_witness :
    login (fun p h => p == h) oneUserDB (some "c@d") (some "x")
      = .err 401 "Invalid credentials." ∧
    login (fun p h => p == h) oneUserDB (some "a@b") (some "wrong")
      = .err 401 "Invalid credentials." ∧
    login (fun p h => p == h) oneUserDB (some "c@d") (some "x")
      = login (fun p h => p == h) oneUserDB (some "a@b") (some "wrong") :=
  C4_login_indistinguishable (fun p h => p == h) oneUserDB "c@d" "x" "a@b" "wrong"
    (by decide) (by decide) (by decide) (by decide) (by decide)
    ⟨1, "N", "a@b", "H"⟩ (by decide) (by decide)

/-- C5: a second registration with an email already held by a stored user
fails with the 409 duplicate-email response, the store is unchanged, and
in particular the first user's row is still present unmodified. -/
theorem C5_duplicate_email_signup (hash : String → String) (db : DB) (u : User)
    (hu : u ∈ db.users) (hue : u.email ≠ "")
    (fullName password : Option String)
    (hf : truthy fullName = true) (hp : truthy password = true) :
    (signup hash db fullName (some u.email) password).1 = ⟨409, "Email already exists."⟩ ∧
    (signup hash db fullName (some u.email) password).2 = db ∧
    u ∈ (signup hash db fullName (some u.email) password).2.users := by
  have htr : truthy (some u.email) = true := by simp [truthy, hue]
  have hex : ∃ x ∈ db.users, x.email = u.email := ⟨u, hu, rfl⟩
  simp [signup, hf, hp, htr, hex, hu]

/-- C5 witness: duplicate signup against the one-user store. -/
theorem C5_duplicate_email_signup_witness :
    (signup (fun p => p) oneUserDB (some "X") (some "a@b") (some "pw")).1
      = ⟨409, "Email already exists."⟩ ∧
    (signup (fun p => p) oneUserDB (some "X") (some "a@b") (some "pw")).2 = oneUserDB ∧
    (⟨1, "N", "a@b", "H"⟩ : User)
      ∈ (signup (fun p => p) oneUserDB (some "X") (some "a@b") (some "pw")).2.users :=
  C5_duplicate_email_signup (fun p => p) oneUserDB ⟨1, "N", "a@b", "H"⟩
    (by decide) (by decide) (some "X") (some "pw") (by decide) (by decide)

/-- C6: a submit that passes validation answers 201 and persists the new
post with status pending: reading the freshly assigned id back immediately
yields a post whose status is pending. -/
theorem C6_submit_status_pending (db : DB) (hwf : WF db) (now : Nat)
    (title content author username imageUrl category : Option String)
    (ht : truthy title = true) (hc : truthy content = true) (ha : truthy author = true)
    (hu : truthy username = true) (hcat : truthy category = true) :
    (createPost db now title content author username imageUrl category).1.status = 201 ∧
    ∃ p, getPost (createPost db now title content author username imageUrl category).2
           db.nextPostId = some p ∧ p.status = "pending" := by
  have hnone : db.posts.find? (fun p => p.id == db.nextPostId) = none := by
    simp only [List.find?_eq_none]
    intro x hx
    have := hwf x hx
    simp [Nat.ne_of_lt this]
  have heq : getPost (createPost db now title content author username imageUrl category).2
      db.nextPostId
      = some { id := db.nextPostId, title := title.getD "", content := content.getD "",
               author := author.getD "", username := username,
               imageUrl := if truthy imageUrl then imageUrl else none,
               category := category, status := "pending", createdAt := now } := by
    simp [createPost, ht, hc, ha, hu, hcat, getPost, hnone]
  exact ⟨by simp [createPost, ht, hc, ha, hu, hcat], _, heq, rfl⟩

/-- C6 witness: a concrete submit on the empty store. -/
theorem C6_submit_status_pending_witness :
    (createPost emptyDB 3 (some "T") (some "B") (some "A") (some "a") none (some "c")).1.status
      = 201 ∧
    ∃ p, getPost (createPost emptyDB 3 (some "T") (some "B") (some "A") (some "a") none
           (some "c")).2 emptyDB.nextPostId = some p ∧ p.status = "pending" :=
  C6_submit_status_pending emptyDB (by intro p hp; simp [emptyDB] at hp) 3 (some "T") (some "B") (some "A")
    (some "a") none (some "c") (by decide) (by decide) (by decide) (by decide) (by decide)

/-- C7: after any sequence of route calls, listAll is a permutation of the
stored posts sorted by createdAt descending, and the approved listing
contains only posts whose current status is approved (never pending or
rejected), in the same descending order. -/
theorem C7_listing (db : DB) (ops : List Op) :
    (listAll (run db ops)).Perm (run db ops).posts ∧
    (listAll (run db ops)).Pairwise (fun a b => b.createdAt ≤ a.createdAt) ∧
    (∀ p ∈ listByStatus (run db ops) "approved",
      p.status = "approved" ∧ p.status ≠ "pending" ∧ p.status ≠ "rejected") ∧
    (listByStatus (run db ops) "approved").Pairwise
      (fun a b => b.createdAt ≤ a.createdAt) := by
  refine ⟨List.mergeSort_perm _ _, ?_, ?_, ?_⟩
  · have h := List.sorted_mergeSort byCreatedAtDesc_trans byCreatedAtDesc_total
      (run db ops).posts
    exact h.imp (fun hab => by simpa [byCreatedAtDesc] using hab)
  · intro p hp
    have hmem : p ∈ (run db ops).posts.filter (fun q => q.status == "approved") := by
      simpa [listByStatus] using hp
    have hst : p.status = "approved" := by
      have := (List.mem_filter.mp hmem).2
      simpa using this
    exact ⟨hst, by simp [hst], by simp [hst]⟩
  · have h := List.sorted_mergeSort byCreatedAtDesc_trans byCreatedAtDesc_total
      ((run db ops).posts.filter (fun q => q.status == "approved"))
    exact h.imp (fun hab => by simpa [byCreatedAtDesc] using hab)

/-- C7 witness: the listing theorem instantiated at the reachable store
`approvedDB` after an empty tail of operations. -/
theorem C7_listing_witness :
    (listAll (run approvedDB [])).Perm (run approvedDB []).posts ∧
    (listAll (run approvedDB [])).Pairwise (fun a b => b.createdAt ≤ a.createdAt) ∧
    (∀ p ∈ listByStatus (run approvedDB []) "approved",
      p.status = "approved" ∧ p.status ≠ "pending" ∧ p.status ≠ "rejected") ∧
    (listByStatus (run approvedDB []) "approved").Pairwise
      (fun a b => b.createdAt ≤ a.createdAt) :=
  C7_listing approvedDB []

/-- C8: for truthy fileName and fileType the grant is issued with key
`posts/<now>-<sanitized fileName>`, a fixed 300-second (five-minute)
validity window, and fileType as the bound content type; every character
of the sanitized name lies in the kept class [A-Za-z0-9._-]. -/
theorem C8_upload_grant (bucket region : String) (now : Nat)
    (fileName fileType : String) (hf : fileName ≠ "") (ht : fileType ≠ "") :
    createUploadGrant bucket region now (some fileName) (some fileType)
      = .ok ⟨bucket, "posts/" ++ toString now ++ "-" ++ sanitizeFileName fileName,
             URL_EXPIRATION_SECONDS, fileType⟩
          ("https://" ++ bucket ++ ".s3." ++ region ++ ".amazonaws.com/" ++
            ("posts/" ++ toString now ++ "-" ++ sanitizeFileName fileName)) ∧
    URL_EXPIRATION_SECONDS = 5 * 60 ∧
    (sanitizeFileName fileName).data.all keepChar = true := by
  refine ⟨by simp [createUploadGrant, truthy, hf, ht, s3Key], rfl, ?_⟩
  simp only [sanitizeFileName, List.all_eq_true]
  intro c hc
  exact (List.mem_filter.mp (by simpa using hc)).2

/-- C8 witness: a concrete file name with spaces and stripped punctuation;
its sanitized form is computed by the kernel. -/
theorem C8_upload_grant_witness :
    ("my photo (1).png" : String) ≠ "" ∧ ("image/png" : String) ≠ "" ∧
    sanitizeFileName "my photo (1).png" = "my_photo_1.png" ∧
    (createUploadGrant "bkt" "r1" 99 (some "my photo (1).png") (some "image/png")
        = .ok ⟨"bkt", "posts/" ++ toString 99 ++ "-" ++ sanitizeFileName "my photo (1).png",
               URL_EXPIRATION_SECONDS, "image/png"⟩
            ("https://" ++ "bkt" ++ ".s3." ++ "r1" ++ ".amazonaws.com/" ++
              ("posts/" ++ toString 99 ++ "-" ++ sanitizeFileName "my photo (1).png")) ∧
      URL_EXPIRATION_SECONDS = 5 * 60 ∧
      (sanitizeFileName "my photo (1).png").data.all keepChar = true) :=
  ⟨by decide, by decide, by decide,
    C8_upload_grant "bkt" "r1" 99 "my photo (1).png" "image/png" (by decide) (by decide)⟩

/-- C9: approve and reject modify only the status of the posts carrying
the targeted id; every other field of those posts, every other post, the
users table and the id counters are unchanged, and no post is created or
removed. -/
theorem C9_moderation_frame (db : DB) (pid : Nat) :
    FramePreserved db (approvePost db pid).2 pid "approved" ∧
    FramePreserved db (rejectPost db pid).2 pid "rejected" := by
  constructor
  · rw [approvePost_snd]
    exact framePreserved_setStatus db pid "approved"
  · rw [rejectPost_snd]
    exact framePreserved_setStatus db pid "rejected"

/-- C9 witness: the frame theorem applied to the concrete store
`approvedDB`. -/
theorem C9_moderation_frame_witness :
    (approvePost approvedDB 1).2.users = approvedDB.users ∧
    (approvePost approvedDB 1).2.posts.length = approvedDB.posts.length := by
  have h := (C9_moderation_frame approvedDB 1).1
  exact ⟨h.1, h.2.2.2.1⟩

/-- C10: in every required-field guard (signup, login, submit, upload
grant) a nonempty all-whitespace string is truthy, so validation passes
and the operation proceeds past the 400 response, while the empty string
is falsy exactly like an absent field: it yields the 400 validation
response, equal to the absent-field response. -/
theorem C10_truthiness (hash : String → String) (compare : String → String → Bool)
    (db : DB) (now : Nat) (s : String) (hne : s ≠ "")
    (hws : s.data.all jsWhitespace = true) :
    ((signup hash db (some s) (some s) (some s)).1.status ≠ 400) ∧
    (login compare db (some s) (some s) ≠ .err 400 "Email and password required.") ∧
    ((createPost db now (some s) (some s) (some s) (some s) none (some s)).1.status ≠ 400) ∧
    (createUploadGrant "b" "r" now (some s) (some s) ≠ .err 400 "Missing file info.") ∧
    ((signup hash db (some "") (some s) (some s)).1 = ⟨400, "All fields required."⟩ ∧
      signup hash db (some "") (some s) (some s) = signup hash db none (some s) (some s)) ∧
    (login compare db (some "") (some s) = .err 400 "Email and password required." ∧
      login compare db (some "") (some s) = login compare db none (some s)) ∧
    ((createPost db now (some "") (some s) (some s) (some s) none (some s)).1
        = ⟨400, "Missing fields."⟩ ∧
      createPost db now (some "") (some s) (some s) (some s) none (some s)
        = createPost db now none (some s) (some s) (some s) none (some s)) ∧
    (createUploadGrant "b" "r" now (some "") (some s) = .err 400 "Missing file info." ∧
      createUploadGrant "b" "r" now (some "") (some s)
        = createUploadGrant "b" "r" now none (some s)) := by
  have hts : truthy (some s) = true := by simp [truthy, hne]
  refine ⟨?_, ?_, ?_, ?_, ⟨rfl, rfl⟩, ⟨rfl, rfl⟩, ⟨rfl, rfl⟩, ⟨rfl, rfl⟩⟩
  · rw [signup, if_neg (by simp [hts])]
    split <;> simp
  · rw [login, if_neg (by simp [hts])]
    rcases hfu : findUser db.users ((some s).getD "") with _ | u
    · simp [hfu]
    · simp only [hfu]
      split <;> simp
  · rw [createPost, if_neg (by simp [hts])]
    simp
  · rw [createUploadGrant, if_neg (by simp [hts])]
    simp

/-- C10 witness: the single-space string on the empty store. -/
theorem C10_truthiness_witness :
    (" " : String) ≠ "" ∧ (" " : String).data.all jsWhitespace = true ∧
    (signup (fun p => p) emptyDB (some " ") (some " ") (some " ")).1.status ≠ 400 :=
  ⟨by decide, by decide,
    (C10_truthiness (fun p => p) (fun a b => a == b) emptyDB 0 " "
      (by decide) (by decide)).1⟩

end CloudScript
